import Mathlib

/-!
Verification of the Voice-AI-Prompt-Optimizer core (`optimize.py`).

The embedding models the optimization control loop of
`VoiceAssistantOptimizer`: test-suite generation, per-test-case
evaluation, metric aggregation, best-prompt tracking and the stopping
rule.  The remote language-model backends (Claude / OpenAI / Perplexity
clients) are external services; they are modelled by an `Oracle` record
whose fields return the response content a given call would produce, or
`none` when the call fails (the Python wrappers catch every exception
and return `None`).  Scores are rational numbers, faithfully mirroring
the exact arithmetic performed on the Python floats for the quantities
of interest.

Python string helpers (`str.strip`, `str.split`) are embedded
structurally over the character list of a `String` so that they compute.
-/

/-- Python `str.strip()` on the underlying character list: drop
whitespace from both ends. -/
def pyStripList (s : List Char) : List Char :=
  ((s.dropWhile Char.isWhitespace).reverse.dropWhile Char.isWhitespace).reverse

/-- Python `str.strip()`. -/
def pyStrip (s : String) : String :=
  String.mk (pyStripList s.data)

/-- Split a character list at every occurrence of the separator `c`;
like Python `str.split(c)`, the empty list yields `[[]]` and separators
at the ends yield empty pieces. -/
def splitOnChar (c : Char) (s : List Char) : List (List Char) :=
  s.foldr
    (fun ch acc =>
      if ch = c then [] :: acc
      else
        match acc with
        | [] => [[ch]]
        | h :: t => (ch :: h) :: t)
    [[]]

/-- Python `content.split(chr(10))`: split a string into its lines. -/
def pySplitLines (s : String) : List String :=
  (splitOnChar '\n' s.data).map String.mk

/-- Python slice `xs[:n]` for an `int` bound `n`: a non-negative bound
takes a prefix, a negative bound drops `-n` elements from the end
(clamped at the empty list). -/
def pySliceUpTo {α : Type} (n : Int) (xs : List α) : List α :=
  if 0 ≤ n then xs.take n.toNat else xs.take ((xs.length : Int) + n).toNat

/-- Python value equality between an `Optional[str]` and a `str`:
`None` never equals a string, strings compare by value.  This is the
semantics of `result[quote-function] == expected` in `run_iteration`,
where the left side may be `None`. -/
def pyEqOptStr : Option String → String → Bool
  | some s, t => s == t
  | none, _ => false

/-- The configuration values of `Config` (optimize.py lines 55-63) used
by the optimization core.  They are independent environment settings;
nothing ties `FUNCTION_WEIGHT` and `PARAMETER_WEIGHT` together. -/
structure Config where
  MAX_ITERATIONS : Nat
  TARGET_ACCURACY : ℚ
  MIN_IMPROVEMENT : ℚ
  VARIATIONS_PER_QUERY : Nat
  FUNCTION_WEIGHT : ℚ
  PARAMETER_WEIGHT : ℚ
  USE_PERPLEXITY : Bool

/-- Outcome of one model-gateway call made with a tool catalog: the
call can fail (the wrapper returns `None`), return plain text, or
invoke a tool with JSON arguments. -/
inductive GatewayReply where
  | failed
  | text (content : String)
  | toolCall (name : String) (arguments : String)
deriving DecidableEq

/-- The record built for each test case in `run_iteration`
(optimize.py lines 557-562). -/
structure Evaluation where
  query : String
  expected : String
  actual : Option String
  correct : Bool
deriving DecidableEq

/-- The per-iteration metrics record (optimize.py lines 570-577). -/
structure Metrics where
  iteration : Nat
  overall : ℚ
  function_acc : ℚ
  correct : Nat
  total : Nat
  evaluations : List Evaluation

/-- A test case of the generated suite (optimize.py lines 605-607). -/
structure TestCase where
  original : String
  variation : String
deriving DecidableEq

/-- The result dictionary of `call_voice_assistant` (optimize.py lines
438-459), restricted to the fields the loop reads. -/
structure AssistantResult where
  query : String
  function : Option String
  success : Bool
deriving DecidableEq

/-- The remote backends, abstracted: each field gives the response a
particular call site would receive.  `none` / `.failed` means the call
failed (every Python wrapper catches exceptions and returns `None`).
The assistant and probe calls also take the iteration number so that a
run may receive different remote answers in different iterations. -/
structure Oracle where
  assistantResp : Nat → String → String → GatewayReply
  probeResp : Nat → String → Option String
  variationsResp : String → Option String
  rewriteResp : String → Metrics → String → Option String
  researchResp : Metrics → Option String


/-- `VoiceAssistantOptimizer.generate_query_variations` (optimize.py
lines 396-420): start from the seed query itself; if the gateway call
succeeded, strip the response, split it into lines, strip each line,
drop empty lines, and append at most `num_variations - 1` of them. -/
def generate_query_variations (o : Oracle) (query : String) (num_variations : Nat) :
    List String :=
  match o.variationsResp query with
  | none => [query]
  | some content =>
      query :: pySliceUpTo ((num_variations : Int) - 1)
        (((pySplitLines (pyStrip content)).map pyStrip).filter (fun v => v != ""))

/-- The paraphrases appended after the seed by
`generate_query_variations`: the same post-processing of the gateway
response, empty when the call failed. -/
def variationTail (o : Oracle) (query : String) (num_variations : Nat) : List String :=
  match o.variationsResp query with
  | none => []
  | some content =>
      pySliceUpTo ((num_variations : Int) - 1)
        (((pySplitLines (pyStrip content)).map pyStrip).filter (fun v => v != ""))

/-- `VoiceAssistantOptimizer.call_voice_assistant` (optimize.py lines
422-459): a failed gateway call yields `function = None, success =
False`; a plain-text reply yields `function = None, success = True`; a
tool invocation yields the tool name. -/
def call_voice_assistant (o : Oracle) (iteration : Nat) (query : String)
    (system_prompt : String) : AssistantResult :=
  match o.assistantResp iteration system_prompt query with
  | .failed => { query := query, function := none, success := false }
  | .text _ => { query := query, function := none, success := true }
  | .toolCall n _ => { query := query, function := some n, success := true }

/-- `VoiceAssistantOptimizer.get_expected_function` (optimize.py lines
461-477): the stripped response content on success, the literal
sentinel string on failure. -/
def get_expected_function (o : Oracle) (iteration : Nat) (query : String) : String :=
  match o.probeResp iteration query with
  | some content => pyStrip content
  | none => "unknown"

/-- The evaluation record built for one test case inside the loop of
`run_iteration` (optimize.py lines 554-562). -/
def evaluate_case (o : Oracle) (iteration : Nat) (prompt : String) (test : TestCase) :
    Evaluation :=
  let result := call_voice_assistant o iteration test.variation prompt
  let expected := get_expected_function o iteration result.query
  { query := result.query
    expected := expected
    actual := result.function
    correct := pyEqOptStr result.function expected }

/-- `VoiceAssistantOptimizer.run_iteration` (optimize.py lines
545-585): evaluate every test case, count the correct ones, guard the
accuracy division against an empty suite, and combine the weighted
score with the hardcoded `0.8` parameter placeholder. -/
def run_iteration (cfg : Config) (o : Oracle) (prompt : String)
    (test_suite : List TestCase) (iteration : Nat) : Metrics :=
  let results := test_suite.map (evaluate_case o iteration prompt)
  let total := results.length
  let correct := (results.filter (fun r => r.correct)).length
  let function_acc : ℚ := if 0 < total then (correct : ℚ) / (total : ℚ) else 0
  let overall := function_acc * cfg.FUNCTION_WEIGHT + (8 / 10) * cfg.PARAMETER_WEIGHT
  { iteration := iteration
    overall := overall
    function_acc := function_acc
    correct := correct
    total := total
    evaluations := results }

/-- `VoiceAssistantOptimizer.research_optimization_strategies`
(optimize.py lines 479-497): empty when research is disabled, when the
Perplexity call fails, and when it returns empty text. -/
def research_optimization_strategies (cfg : Config) (o : Oracle)
    (current_metrics : Metrics) : String :=
  if cfg.USE_PERPLEXITY then
    match o.researchResp current_metrics with
    | some research => research
    | none => ""
  else ""

/-- `VoiceAssistantOptimizer.optimize_prompt` (optimize.py lines
499-543): the stripped rewrite response on success, the input prompt
unchanged on failure. -/
def optimize_prompt (o : Oracle) (current_prompt : String) (metrics : Metrics)
    (research_insights : String) : String :=
  match o.rewriteResp current_prompt metrics research_insights with
  | some content => pyStrip content
  | none => current_prompt

/-- The mutable state the loop of `VoiceAssistantOptimizer.optimize`
maintains: `current_prompt` (local of `optimize`), `best_prompt`,
`best_score` and `metrics_history` (set in `__init__`). -/
structure OptState where
  current_prompt : String
  best_prompt : String
  best_score : ℚ
  metrics_history : List Metrics

/-- Why the loop of `optimize` ends: target accuracy reached,
improvement below threshold, or the iteration budget exhausted
(the `for` range running out). -/
inductive StopReason where
  | target
  | plateau
  | budget
deriving DecidableEq

/-- History append plus best-tracking (optimize.py lines 616-622):
the metrics are appended, and exactly when the overall score strictly
exceeds the best score, the best score and the best prompt are replaced
by this iteration's overall score and the prompt that was evaluated. -/
def trackBest (st : OptState) (metrics : Metrics) : OptState :=
  if st.best_score < metrics.overall then
    { st with
      metrics_history := st.metrics_history ++ [metrics]
      best_score := metrics.overall
      best_prompt := st.current_prompt }
  else
    { st with metrics_history := st.metrics_history ++ [metrics] }

/-- The overall score the plateau check compares against:
`self.metrics_history[-2]` after the append, i.e. the last entry
recorded before the current iteration (optimize.py line 630).  The
check is guarded by `iteration > 1`, so in a run the history is never
too short; an absent entry is read as `0` here. -/
def prevOverall (st : OptState) : ℚ :=
  match st.metrics_history.getLast? with
  | some m => m.overall
  | none => 0

/-- The rewrite step at the bottom of the loop body (optimize.py lines
635-643): only taken while the budget is not exhausted (`iteration <
MAX_ITERATIONS`, i.e. `0 < remaining` here); research happens once, in
the first iteration, when enabled; the next prompt is the rewriter
output, which is the unchanged prompt when the rewrite call fails. -/
def advanceState (cfg : Config) (o : Oracle) (st : OptState) (metrics : Metrics)
    (iteration remaining : Nat) : OptState :=
  if 0 < remaining then
    let research_insights :=
      if cfg.USE_PERPLEXITY && iteration == 1 then
        research_optimization_strategies cfg o metrics
      else ""
    { st with current_prompt := optimize_prompt o st.current_prompt metrics research_insights }
  else st

/-- The `for iteration in range(1, MAX_ITERATIONS + 1)` loop of
`VoiceAssistantOptimizer.optimize` (optimize.py lines 613-643), with
`remaining` the number of iterations the range still allows (the loop
is entered with `remaining = MAX_ITERATIONS, iteration = 1`, so
`iteration + remaining = MAX_ITERATIONS + 1` throughout).  Each pass
runs the iteration on the current prompt, appends and best-tracks, then
checks the target condition, then the plateau condition (only past the
first iteration), and otherwise rewrites and continues; an exhausted
range ends the run with the budget reason. -/
def optLoopAux (cfg : Config) (o : Oracle) (test_suite : List TestCase) :
    Nat → Nat → OptState → OptState × StopReason
  | 0, _, st => (st, StopReason.budget)
  | remaining + 1, iteration, st =>
    let metrics := run_iteration cfg o st.current_prompt test_suite iteration
    let st1 := trackBest st metrics
    if cfg.TARGET_ACCURACY ≤ metrics.overall then
      (st1, StopReason.target)
    else if 1 < iteration ∧ metrics.overall - prevOverall st < cfg.MIN_IMPROVEMENT then
      (st1, StopReason.plateau)
    else
      optLoopAux cfg o test_suite remaining (iteration + 1)
        (advanceState cfg o st1 metrics iteration remaining)

/-- The seed queries `TEST_QUERIES` (optimize.py lines 94-105). -/
def TEST_QUERIES : List String :=
  [ "What\x27s the weather like today?"
  , "I need help with my account"
  , "Can you tell me a joke?"
  , "I\x27m very frustrated, I want to speak to someone"
  , "How do I reset my password?"
  , "This is urgent, I need immediate assistance"
  , "What time is it?"
  , "I\x27d like to talk to a human representative"
  , "Can you help me understand my bill?"
  , "Tell me about your services" ]

/-- The seed system prompt `INITIAL_PROMPT` (optimize.py lines 143-166). -/
def INITIAL_PROMPT : String :=
  "You are an intelligent voice assistant designed to help users with their questions and provide support when needed.\n\n## Your Capabilities:\n\n1. **Answer Questions**: You can answer general questions about various topics, provide information, and help with everyday queries.\n\n2. **Escalate to Human Support**: When users express distress, need urgent help, or explicitly request to speak with a human, you should escalate the conversation to a human support agent.\n\n## Function Calling Guidelines:\n\n- Use the `answer_question` function for general queries and information requests\n- Use the `escalate_to_human` function when:\n  - The user explicitly asks to speak with a human\n  - The user expresses distress, frustration, or urgent needs\n  - The query is beyond your capabilities\n  - The user seems unsatisfied with automated responses\n\n## Response Style:\n\n- Be conversational and friendly\n- Keep responses concise and clear\n- Show empathy when users are frustrated\n- Always prioritize user satisfaction\n"

/-- Suite construction at the top of `optimize` (optimize.py lines
601-608): for each seed query in order, one entry per returned
variation, the seed itself first. -/
def build_test_suite (o : Oracle) (seed_queries : List String) (num_variations : Nat) :
    List TestCase :=
  seed_queries.flatMap (fun query =>
    (generate_query_variations o query num_variations).map
      (fun v => { original := query, variation := v }))

/-- The state `optimize` starts from: current and best prompt are the
seed prompt, best score `0.0`, empty history (optimize.py lines
392-394 and 611). -/
def initialState : OptState :=
  { current_prompt := INITIAL_PROMPT
    best_prompt := INITIAL_PROMPT
    best_score := 0
    metrics_history := [] }

/-- `VoiceAssistantOptimizer.optimize` (optimize.py lines 587-645):
build the suite once, then run the iteration loop from the seed
prompt. -/
def optimize (cfg : Config) (o : Oracle) : OptState × StopReason :=
  let test_suite := build_test_suite o TEST_QUERIES cfg.VARIATIONS_PER_QUERY
  optLoopAux cfg o test_suite cfg.MAX_ITERATIONS 1 initialState

/-!
Concrete configurations, oracles and states used to instantiate the
theorems below on closed inputs.
-/

/-- The default configuration from `.env` fallbacks (optimize.py lines
55-63): 5 iterations, target 0.90, minimum improvement 0.02, 2
variations per query, weights 0.7 and 0.3. -/
def defaultConfig : Config :=
  { MAX_ITERATIONS := 5
    TARGET_ACCURACY := 9/10
    MIN_IMPROVEMENT := 1/50
    VARIATIONS_PER_QUERY := 2
    FUNCTION_WEIGHT := 7/10
    PARAMETER_WEIGHT := 3/10
    USE_PERPLEXITY := true }

/-- A backend on which every remote call fails. -/
def failOracle : Oracle :=
  { assistantResp := fun _ _ _ => GatewayReply.failed
    probeResp := fun _ _ => none
    variationsResp := fun _ => none
    rewriteResp := fun _ _ _ => none
    researchResp := fun _ => none }

/-- A backend that always selects `answer_question`, both as the agent
under test and as the expected-function probe. -/
def constOracle : Oracle :=
  { assistantResp := fun _ _ _ => GatewayReply.toolCall "answer_question" ""
    probeResp := fun _ _ => some "answer_question"
    variationsResp := fun _ => none
    rewriteResp := fun _ _ _ => none
    researchResp := fun _ => none }

/-- A backend that returns four paraphrase lines however few were
requested. -/
def verboseOracle : Oracle :=
  { assistantResp := fun _ _ _ => GatewayReply.failed
    probeResp := fun _ _ => none
    variationsResp := fun _ => some "a\nb\nc\nd"
    rewriteResp := fun _ _ _ => none
    researchResp := fun _ => none }

/-- A backend whose rewrite call succeeds with padded text. -/
def trimOracle : Oracle :=
  { assistantResp := fun _ _ _ => GatewayReply.failed
    probeResp := fun _ _ => none
    variationsResp := fun _ => none
    rewriteResp := fun _ _ _ => some " new "
    researchResp := fun _ => none }

/-- A backend realizing the plateau scenario on a five-case suite: the
probe always expects `f`; the agent matches it on 0 cases in iteration
1, on 4 cases in iteration 2, and on all 5 cases from iteration 3 on. -/
def plateauOracle : Oracle :=
  { assistantResp := fun it _ q =>
      if it == 1 then GatewayReply.failed
      else if it == 2 then
        (if q == "4" then GatewayReply.failed else GatewayReply.toolCall "f" "")
      else GatewayReply.toolCall "f" ""
    probeResp := fun _ _ => some "f"
    variationsResp := fun _ => none
    rewriteResp := fun _ _ _ => none
    researchResp := fun _ => none }

/-- Configuration for the plateau scenario: `MIN_IMPROVEMENT = 0.02`
and weights chosen so the three iterations of `plateauOracle` score
exactly 0.68, 0.70 and 0.705. -/
def plateauCfg : Config :=
  { MAX_ITERATIONS := 5
    TARGET_ACCURACY := 9/10
    MIN_IMPROVEMENT := 1/50
    VARIATIONS_PER_QUERY := 1
    FUNCTION_WEIGHT := 1/40
    PARAMETER_WEIGHT := 17/20
    USE_PERPLEXITY := false }

/-- The plateau configuration with the target lowered to 0.705, the
exact overall score of iteration 3, so that in iteration 3 the target
condition and the plateau condition hold simultaneously. -/
def targetCfg : Config :=
  { MAX_ITERATIONS := 5
    TARGET_ACCURACY := 141/200
    MIN_IMPROVEMENT := 1/50
    VARIATIONS_PER_QUERY := 1
    FUNCTION_WEIGHT := 1/40
    PARAMETER_WEIGHT := 17/20
    USE_PERPLEXITY := false }

/-- The five-case suite of the plateau scenario. -/
def plateauSuite : List TestCase :=
  [ { original := "0", variation := "0" }
  , { original := "1", variation := "1" }
  , { original := "2", variation := "2" }
  , { original := "3", variation := "3" }
  , { original := "4", variation := "4" } ]

/-- A configuration whose target accuracy of 0 is always reached. -/
def zeroCfg : Config :=
  { MAX_ITERATIONS := 1
    TARGET_ACCURACY := 0
    MIN_IMPROVEMENT := 1
    VARIATIONS_PER_QUERY := 1
    FUNCTION_WEIGHT := 0
    PARAMETER_WEIGHT := 0
    USE_PERPLEXITY := false }

/-- A configuration whose target accuracy of 1 is never reached by a
zero-weight score and whose improvement threshold of 1 always
triggers the plateau check. -/
def oneCfg : Config :=
  { MAX_ITERATIONS := 1
    TARGET_ACCURACY := 1
    MIN_IMPROVEMENT := 1
    VARIATIONS_PER_QUERY := 1
    FUNCTION_WEIGHT := 0
    PARAMETER_WEIGHT := 0
    USE_PERPLEXITY := false }

/-- A mid-run state whose history already holds one metrics record, as
the loop sees it when entering iteration 2. -/
def histState : OptState :=
  { current_prompt := "p"
    best_prompt := "p"
    best_score := 0
    metrics_history := [run_iteration zeroCfg failOracle "p" [] 1] }

/-- The metrics of an iteration over the empty suite with every call
failing. -/
def emptyMetrics : Metrics := run_iteration defaultConfig failOracle "p" [] 1

/-!
Helper lemmas about the embedded operations.
-/

/-- The overall score unfolds to the weighted combination computed at
optimize.py lines 567-568. -/
lemma run_iteration_overall (cfg : Config) (o : Oracle) (prompt : String)
    (suite : List TestCase) (it : Nat) :
    (run_iteration cfg o prompt suite it).overall
      = (if 0 < (run_iteration cfg o prompt suite it).total
         then ((run_iteration cfg o prompt suite it).correct : ℚ)
              / ((run_iteration cfg o prompt suite it).total : ℚ)
         else 0) * cfg.FUNCTION_WEIGHT + (8 / 10) * cfg.PARAMETER_WEIGHT := rfl

/-- Best-tracking appends the metrics to the history. -/
lemma trackBest_history (st : OptState) (m : Metrics) :
    (trackBest st m).metrics_history = st.metrics_history ++ [m] := by
  unfold trackBest; split <;> rfl

/-- The rewrite step does not touch the history. -/
lemma advanceState_history (cfg : Config) (o : Oracle) (st : OptState) (m : Metrics)
    (i r : Nat) : (advanceState cfg o st m i r).metrics_history = st.metrics_history := by
  unfold advanceState; split <;> rfl

/-- The rewrite step does not touch the best score. -/
lemma advanceState_best_score (cfg : Config) (o : Oracle) (st : OptState) (m : Metrics)
    (i r : Nat) : (advanceState cfg o st m i r).best_score = st.best_score := by
  unfold advanceState; split <;> rfl

/-- The previous-iteration score read by the plateau check is the last
history entry. -/
lemma prevOverall_of_history (st : OptState) (l : List Metrics) (m : Metrics)
    (h : st.metrics_history = l ++ [m]) : prevOverall st = m.overall := by
  unfold prevOverall
  rw [h, List.getLast?_concat]

/-- Best-tracking replaces the best score exactly on strict
improvement. -/
lemma trackBest_best_score (st : OptState) (m : Metrics) :
    (trackBest st m).best_score
      = if st.best_score < m.overall then m.overall else st.best_score := by
  unfold trackBest; split <;> rfl

/-- Best-tracking replaces the best prompt, by the prompt the iteration
evaluated, exactly on strict improvement. -/
lemma trackBest_best_prompt (st : OptState) (m : Metrics) :
    (trackBest st m).best_prompt
      = if st.best_score < m.overall then st.current_prompt else st.best_prompt := by
  unfold trackBest; split <;> rfl

/-- Best-tracking never lowers the best score. -/
lemma trackBest_best_score_le (st : OptState) (m : Metrics) :
    st.best_score ≤ (trackBest st m).best_score := by
  rw [trackBest_best_score]
  split
  · exact le_of_lt (by assumption)
  · exact le_refl _

/-- The loop never lowers the best score. -/
lemma optLoopAux_best_mono (cfg : Config) (o : Oracle) (suite : List TestCase) :
    ∀ (r it : Nat) (st : OptState),
      st.best_score ≤ (optLoopAux cfg o suite r it st).1.best_score := by
  intro r
  induction r with
  | zero => intro it st; exact le_refl _
  | succ n ih =>
    intro it st
    rw [optLoopAux]
    split
    · exact trackBest_best_score_le _ _
    · split
      · exact trackBest_best_score_le _ _
      · calc st.best_score
            ≤ (trackBest st (run_iteration cfg o st.current_prompt suite it)).best_score :=
              trackBest_best_score_le _ _
          _ = (advanceState cfg o (trackBest st (run_iteration cfg o st.current_prompt suite it))
                (run_iteration cfg o st.current_prompt suite it) it n).best_score :=
              (advanceState_best_score _ _ _ _ _ _).symm
          _ ≤ _ := ih (it + 1) _

/-- Each loop pass appends exactly one metrics record, so the history
grows by at most the remaining fuel. -/
lemma optLoopAux_history_length (cfg : Config) (o : Oracle) (suite : List TestCase) :
    ∀ (r it : Nat) (st : OptState),
      ((optLoopAux cfg o suite r it st).1.metrics_history).length
        ≤ st.metrics_history.length + r := by
  intro r
  induction r with
  | zero => intro it st; exact Nat.le_add_right _ _
  | succ n ih =>
    intro it st
    rw [optLoopAux]
    split
    · simp [trackBest_history]
    · split
      · simp [trackBest_history]
      · calc ((optLoopAux cfg o suite n (it + 1)
              (advanceState cfg o (trackBest st (run_iteration cfg o st.current_prompt suite it))
                (run_iteration cfg o st.current_prompt suite it) it n)).1.metrics_history).length
            ≤ (advanceState cfg o (trackBest st (run_iteration cfg o st.current_prompt suite it))
                (run_iteration cfg o st.current_prompt suite it) it n).metrics_history.length + n :=
              ih (it + 1) _
          _ = st.metrics_history.length + (n + 1) := by
              rw [advanceState_history, trackBest_history]
              simp; omega

/-- In iteration 1 of the plateau scenario no test passes: the overall
score is 0.68. -/
lemma plateau_overall_one (cfg : Config) (hF : cfg.FUNCTION_WEIGHT = 1/40)
    (hP : cfg.PARAMETER_WEIGHT = 17/20) (p : String) :
    (run_iteration cfg plateauOracle p plateauSuite 1).overall = 17/25 := by
  have hc : (run_iteration cfg plateauOracle p plateauSuite 1).correct = 0 := rfl
  have ht : (run_iteration cfg plateauOracle p plateauSuite 1).total = 5 := rfl
  rw [run_iteration_overall, hc, ht, hF, hP]; norm_num

/-- In iteration 2 of the plateau scenario four of five tests pass: the
overall score is 0.70. -/
lemma plateau_overall_two (cfg : Config) (hF : cfg.FUNCTION_WEIGHT = 1/40)
    (hP : cfg.PARAMETER_WEIGHT = 17/20) (p : String) :
    (run_iteration cfg plateauOracle p plateauSuite 2).overall = 7/10 := by
  have hc : (run_iteration cfg plateauOracle p plateauSuite 2).correct = 4 := rfl
  have ht : (run_iteration cfg plateauOracle p plateauSuite 2).total = 5 := rfl
  rw [run_iteration_overall, hc, ht, hF, hP]; norm_num

/-- In iteration 3 of the plateau scenario all five tests pass: the
overall score is 0.705. -/
lemma plateau_overall_three (cfg : Config) (hF : cfg.FUNCTION_WEIGHT = 1/40)
    (hP : cfg.PARAMETER_WEIGHT = 17/20) (p : String) :
    (run_iteration cfg plateauOracle p plateauSuite 3).overall = 141/200 := by
  have hc : (run_iteration cfg plateauOracle p plateauSuite 3).correct = 5 := rfl
  have ht : (run_iteration cfg plateauOracle p plateauSuite 3).total = 5 := rfl
  rw [run_iteration_overall, hc, ht, hF, hP]; norm_num

/-- The plateau-scenario run: with weights 1/40 and 17/20, improvement
threshold 0.02 and a target above both 0.68 and 0.70, the loop passes
iteration 1 (no plateau check in the first iteration), passes iteration
2 (improvement exactly 0.02 is not strictly below the threshold), and
stops in iteration 3, with the target reason when the target is at most
0.705 and the plateau reason otherwise. -/
lemma plateau_scenario_run (cfg : Config) (hF : cfg.FUNCTION_WEIGHT = 1/40)
    (hP : cfg.PARAMETER_WEIGHT = 17/20) (hM : cfg.MIN_IMPROVEMENT = 1/50)
    (hT2 : 7/10 < cfg.TARGET_ACCURACY) (hT1 : (17:ℚ)/25 < cfg.TARGET_ACCURACY) :
    optLoopAux cfg plateauOracle plateauSuite 5 1 initialState
      = (let m1 := run_iteration cfg plateauOracle initialState.current_prompt plateauSuite 1
         let st1 := advanceState cfg plateauOracle (trackBest initialState m1) m1 1 4
         let m2 := run_iteration cfg plateauOracle st1.current_prompt plateauSuite 2
         let st2 := advanceState cfg plateauOracle (trackBest st1 m2) m2 2 3
         let m3 := run_iteration cfg plateauOracle st2.current_prompt plateauSuite 3
         if cfg.TARGET_ACCURACY ≤ (141:ℚ)/200 then (trackBest st2 m3, StopReason.target)
         else (trackBest st2 m3, StopReason.plateau)) := by
  show optLoopAux cfg plateauOracle plateauSuite (4+1) 1 initialState = _
  rw [optLoopAux]
  rw [if_neg (by rw [plateau_overall_one _ hF hP _]; exact not_le.mpr hT1)]
  rw [if_neg (by simp)]
  show optLoopAux cfg plateauOracle plateauSuite (3+1) 2 _ = _
  rw [optLoopAux]
  rw [if_neg (by rw [plateau_overall_two _ hF hP _]; exact not_le.mpr hT2)]
  rw [if_neg (by
    rw [plateau_overall_two _ hF hP _, hM,
      prevOverall_of_history _ [] _ (by rw [advanceState_history, trackBest_history]; rfl),
      plateau_overall_one _ hF hP _]
    norm_num)]
  show optLoopAux cfg plateauOracle plateauSuite (2+1) 3 _ = _
  rw [optLoopAux]
  rw [plateau_overall_three _ hF hP _]
  by_cases htarget : cfg.TARGET_ACCURACY ≤ (141:ℚ)/200
  · rw [if_pos htarget, if_pos htarget]
  · rw [if_neg htarget, if_neg htarget]
    rw [if_pos (by
      refine ⟨by norm_num, ?_⟩
      rw [prevOverall_of_history _
          [run_iteration cfg plateauOracle initialState.current_prompt plateauSuite 1] _
          (by rw [advanceState_history, trackBest_history, advanceState_history,
                trackBest_history]; rfl),
        plateau_overall_two _ hF hP _, hM]
      norm_num)]

/-- The seed is always the head of the generated variations. -/
lemma generate_query_variations_eq_cons (o : Oracle) (q : String) (k : Nat) :
    generate_query_variations o q k = q :: variationTail o q k := by
  unfold generate_query_variations variationTail
  cases o.variationsResp q <;> rfl

/-- With one variation per query nothing is kept beyond the seed: the
slice bound is `1 - 1 = 0`. -/
lemma variationTail_one (o : Oracle) (q : String) : variationTail o q 1 = [] := by
  unfold variationTail
  cases o.variationsResp q
  · rfl
  · show pySliceUpTo ((1 : Int) - 1) _ = []
    norm_num [pySliceUpTo]

/-- The suite is the seeds in order, each directly followed by its own
paraphrases. -/
lemma build_test_suite_eq (o : Oracle) (seeds : List String) (k : Nat) :
    build_test_suite o seeds k
      = seeds.flatMap (fun q =>
          ({ original := q, variation := q } : TestCase)
            :: (variationTail o q k).map (fun v => { original := q, variation := v })) := by
  unfold build_test_suite
  simp only [generate_query_variations_eq_cons]
  rfl

/-- With one variation per query the suite is exactly one seed-entry
per seed. -/
lemma build_test_suite_one (o : Oracle) (seeds : List String) :
    build_test_suite o seeds 1
      = seeds.map (fun q => { original := q, variation := q }) := by
  rw [build_test_suite_eq]
  simp only [variationTail_one, List.map_nil]
  induction seeds with
  | nil => rfl
  | cons q rest ih => rw [List.flatMap_cons, List.map_cons, ih]; rfl

/-- At most `k - 1` paraphrases survive the slice, however many lines
the gateway returned. -/
lemma variationTail_length_le (o : Oracle) (q : String) (k : Nat) (hk : 1 ≤ k) :
    (variationTail o q k).length ≤ k - 1 := by
  unfold variationTail
  cases o.variationsResp q
  · simp
  · show (pySliceUpTo ((k : Int) - 1) _).length ≤ k - 1
    unfold pySliceUpTo
    rw [if_pos (by omega : (0 : Int) ≤ (k : Int) - 1)]
    calc (List.take ((k : Int) - 1).toNat _).length ≤ ((k : Int) - 1).toNat := by
          rw [List.length_take]; exact min_le_left _ _
      _ = k - 1 := by omega

/-- The assistant result echoes the query it was asked. -/
lemma call_voice_assistant_query (o : Oracle) (it : Nat) (q p : String) :
    (call_voice_assistant o it q p).query = q := by
  unfold call_voice_assistant
  cases o.assistantResp it p q <;> rfl

/-!
The claim theorems.
-/

/-- Claim C1: in every iteration the recorded overall score equals
`function_acc * FUNCTION_WEIGHT + 0.8 * PARAMETER_WEIGHT`, where
`function_acc` is the fraction of correct evaluations (guarded on an
empty suite); the formula is a function of `function_acc` and the two
independently configured weights, which are not constrained to sum
to 1. -/
theorem overall_score_formula (cfg : Config) (o : Oracle) (prompt : String)
    (suite : List TestCase) (it : Nat) :
    (run_iteration cfg o prompt suite it).overall
      = (run_iteration cfg o prompt suite it).function_acc * cfg.FUNCTION_WEIGHT
        + (8 / 10) * cfg.PARAMETER_WEIGHT
    ∧ (run_iteration cfg o prompt suite it).function_acc
      = (if 0 < (run_iteration cfg o prompt suite it).total
         then ((run_iteration cfg o prompt suite it).correct : ℚ)
              / ((run_iteration cfg o prompt suite it).total : ℚ)
         else 0)
    ∧ (run_iteration cfg o prompt suite it).correct
      = (((run_iteration cfg o prompt suite it).evaluations).filter (fun e => e.correct)).length
    ∧ (run_iteration cfg o prompt suite it).total
      = ((run_iteration cfg o prompt suite it).evaluations).length :=
  ⟨rfl, rfl, rfl, rfl⟩

/-- Claim C2: every evaluation produced by an iteration has
`correct = (actual == expected)` under plain Python value equality,
where an absent actual function (`None`) never equals a string. -/
theorem correct_is_plain_equality (cfg : Config) (o : Oracle) (prompt : String)
    (suite : List TestCase) (it : Nat) (e : Evaluation)
    (he : e ∈ (run_iteration cfg o prompt suite it).evaluations) :
    e.correct = pyEqOptStr e.actual e.expected := by
  have hev : (run_iteration cfg o prompt suite it).evaluations
      = suite.map (evaluate_case o it prompt) := rfl
  rw [hev] at he
  obtain ⟨t, _, rfl⟩ := List.mem_map.mp he
  rfl

/-- Witness for C2 on a concrete one-case suite. -/
theorem correct_is_plain_equality_witness :
    (evaluate_case constOracle 1 "p" { original := "q", variation := "q" }).correct
      = pyEqOptStr (evaluate_case constOracle 1 "p" { original := "q", variation := "q" }).actual
          (evaluate_case constOracle 1 "p" { original := "q", variation := "q" }).expected :=
  correct_is_plain_equality defaultConfig constOracle "p"
    [{ original := "q", variation := "q" }] 1
    (evaluate_case constOracle 1 "p" { original := "q", variation := "q" }) (by decide)

/-- Claim C3: the tracked best score never decreases over any run
segment of the loop; per iteration the best score is replaced exactly
when the iteration's overall score strictly exceeds it, and in that
case the best prompt becomes the prompt that this very iteration
evaluated (current before any rewrite). -/
theorem best_score_tracking (cfg : Config) (o : Oracle) (suite : List TestCase)
    (r it : Nat) (st : OptState) :
    st.best_score ≤ (optLoopAux cfg o suite r it st).1.best_score
    ∧ (trackBest st (run_iteration cfg o st.current_prompt suite it)).best_score
      = (if st.best_score < (run_iteration cfg o st.current_prompt suite it).overall
         then (run_iteration cfg o st.current_prompt suite it).overall else st.best_score)
    ∧ (trackBest st (run_iteration cfg o st.current_prompt suite it)).best_prompt
      = (if st.best_score < (run_iteration cfg o st.current_prompt suite it).overall
         then st.current_prompt else st.best_prompt) :=
  ⟨optLoopAux_best_mono cfg o suite r it st, trackBest_best_score _ _, trackBest_best_prompt _ _⟩

/-- Claim C4: the loop checks the target condition first (it wins even
when the plateau condition holds as well), then the plateau condition
(only past the first iteration, strict comparison against
`MIN_IMPROVEMENT`), and the budget ends the run otherwise; and in the
scenario with `MIN_IMPROVEMENT = 0.02`, iteration overalls 0.68, 0.70
and 0.705, the loop stops after iteration 3 with the plateau reason
(iteration 2's improvement of exactly 0.02 does not stop it), while
lowering the target to 0.705 makes the same run stop with the target
reason. -/
theorem stopping_rule :
    (∀ (cfg : Config) (o : Oracle) (suite : List TestCase) (r it : Nat) (st : OptState),
      cfg.TARGET_ACCURACY ≤ (run_iteration cfg o st.current_prompt suite it).overall →
      optLoopAux cfg o suite (r + 1) it st
        = (trackBest st (run_iteration cfg o st.current_prompt suite it), StopReason.target))
    ∧ (∀ (cfg : Config) (o : Oracle) (suite : List TestCase) (r it : Nat) (st : OptState),
      (run_iteration cfg o st.current_prompt suite it).overall < cfg.TARGET_ACCURACY →
      1 < it →
      (run_iteration cfg o st.current_prompt suite it).overall - prevOverall st
        < cfg.MIN_IMPROVEMENT →
      optLoopAux cfg o suite (r + 1) it st
        = (trackBest st (run_iteration cfg o st.current_prompt suite it), StopReason.plateau))
    ∧ (∀ (cfg : Config) (o : Oracle) (suite : List TestCase) (it : Nat) (st : OptState),
      (run_iteration cfg o st.current_prompt suite it).overall < cfg.TARGET_ACCURACY →
      ¬ (1 < it ∧ (run_iteration cfg o st.current_prompt suite it).overall - prevOverall st
        < cfg.MIN_IMPROVEMENT) →
      optLoopAux cfg o suite 1 it st
        = (trackBest st (run_iteration cfg o st.current_prompt suite it), StopReason.budget))
    ∧ ((optLoopAux plateauCfg plateauOracle plateauSuite 5 1 initialState).2 = StopReason.plateau
       ∧ (optLoopAux plateauCfg plateauOracle plateauSuite 5 1 initialState).1.metrics_history.map
            Metrics.overall = [17/25, 7/10, 141/200]
       ∧ (optLoopAux plateauCfg plateauOracle plateauSuite 5 1 initialState).1.metrics_history.map
            Metrics.iteration = [1, 2, 3])
    ∧ (optLoopAux targetCfg plateauOracle plateauSuite 5 1 initialState).2 = StopReason.target := by
  refine ⟨?_, ?_, ?_, ?_, ?_⟩
  · intro cfg o suite r it st h
    rw [optLoopAux, if_pos h]
  · intro cfg o suite r it st h1 h2 h3
    rw [optLoopAux, if_neg (not_le.mpr h1), if_pos ⟨h2, h3⟩]
  · intro cfg o suite it st h1 h2
    show optLoopAux cfg o suite (0 + 1) it st = _
    rw [optLoopAux, if_neg (not_le.mpr h1), if_neg h2]
    rw [optLoopAux]
    have hadv : advanceState cfg o
        (trackBest st (run_iteration cfg o st.current_prompt suite it))
        (run_iteration cfg o st.current_prompt suite it) it 0
        = trackBest st (run_iteration cfg o st.current_prompt suite it) := rfl
    rw [hadv]
  · have hrun := plateau_scenario_run plateauCfg rfl rfl rfl
      (by norm_num [plateauCfg]) (by norm_num [plateauCfg])
    refine ⟨?_, ?_, ?_⟩
    · simp only [hrun]
      rw [if_neg (by norm_num [plateauCfg])]
    · simp only [hrun]
      rw [if_neg (by norm_num [plateauCfg])]
      simp only [trackBest_history, advanceState_history]
      simp [plateau_overall_one plateauCfg rfl rfl, plateau_overall_two plateauCfg rfl rfl,
        plateau_overall_three plateauCfg rfl rfl, initialState]
    · simp only [hrun]
      rw [if_neg (by norm_num [plateauCfg])]
      simp only [trackBest_history, advanceState_history]
      simp [initialState]
      refine ⟨rfl, rfl, rfl⟩
  · have hrun := plateau_scenario_run targetCfg rfl rfl rfl
      (by norm_num [targetCfg]) (by norm_num [targetCfg])
    simp only [hrun]
    rw [if_pos (by norm_num [targetCfg])]

/-- Witness for C4: each stop reason realized on concrete inputs. -/
theorem stopping_rule_witness :
    optLoopAux zeroCfg failOracle [] 1 1 initialState
      = (trackBest initialState (run_iteration zeroCfg failOracle initialState.current_prompt [] 1),
         StopReason.target)
    ∧ optLoopAux oneCfg failOracle [] 1 2 histState
      = (trackBest histState (run_iteration oneCfg failOracle histState.current_prompt [] 2),
         StopReason.plateau)
    ∧ optLoopAux oneCfg failOracle [] 1 1 initialState
      = (trackBest initialState (run_iteration oneCfg failOracle initialState.current_prompt [] 1),
         StopReason.budget) := by
  refine ⟨stopping_rule.1 zeroCfg failOracle [] 0 1 initialState ?_,
          stopping_rule.2.1 oneCfg failOracle [] 0 2 histState ?_ (by norm_num) ?_,
          stopping_rule.2.2.1 oneCfg failOracle [] 1 initialState ?_ (by simp)⟩
  · rw [run_iteration_overall]; norm_num [zeroCfg]
  · rw [run_iteration_overall]; norm_num [oneCfg]
  · rw [prevOverall_of_history histState [] _ rfl]
    simp only [run_iteration_overall]
    norm_num [oneCfg, zeroCfg]
  · rw [run_iteration_overall]; norm_num [oneCfg]

/-- Claim C5: the loop of `optimize` records at most `MAX_ITERATIONS`
metrics, whatever the backends do; being a total function of the
embedding, the run always terminates. -/
theorem iteration_budget_bound (cfg : Config) (o : Oracle) :
    ((optimize cfg o).1.metrics_history).length ≤ cfg.MAX_ITERATIONS := by
  have h := optLoopAux_history_length cfg o
    (build_test_suite o TEST_QUERIES cfg.VARIATIONS_PER_QUERY) cfg.MAX_ITERATIONS 1 initialState
  simpa [optimize, initialState] using h

/-- Claim C6: for every seed list the suite is, in order, each seed as
a `variation = original` test case directly followed by that seed's own
paraphrases, before any entry of a later seed; with one variation per
query the suite is exactly the seeds, regardless of the gateway
responses. -/
theorem suite_seed_first_structure (o : Oracle) (seeds : List String) (k : Nat) :
    build_test_suite o seeds k
      = seeds.flatMap (fun q =>
          ({ original := q, variation := q } : TestCase)
            :: (variationTail o q k).map (fun v => { original := q, variation := v }))
    ∧ (build_test_suite o seeds 1).length = seeds.length
    ∧ ∀ t ∈ build_test_suite o seeds 1, t.variation = t.original := by
  refine ⟨build_test_suite_eq o seeds k, ?_, ?_⟩
  · rw [build_test_suite_one]
    exact List.length_map _ _
  · rw [build_test_suite_one]
    intro t ht
    obtain ⟨q, _, rfl⟩ := List.mem_map.mp ht
    rfl

/-- Witness for C6 on a concrete two-seed suite. -/
theorem suite_seed_first_structure_witness :
    TestCase.variation { original := "a", variation := "a" }
      = TestCase.original { original := "a", variation := "a" } :=
  (suite_seed_first_structure constOracle ["a", "b"] 1).2.2
    { original := "a", variation := "a" } (by decide)

/-- Claim C7: a failed rewrite call returns the input prompt unchanged,
so the loop enters the next iteration with the same current prompt; a
successful call returns the stripped response text. -/
theorem rewrite_failure_reuses_prompt :
    (∀ (o : Oracle) (p : String) (m : Metrics) (ins : String),
      o.rewriteResp p m ins = none → optimize_prompt o p m ins = p)
    ∧ (∀ (o : Oracle) (p : String) (m : Metrics) (ins s : String),
      o.rewriteResp p m ins = some s → optimize_prompt o p m ins = pyStrip s)
    ∧ (∀ (cfg : Config) (o : Oracle) (st : OptState) (m : Metrics) (i r : Nat),
      (∀ p m2 ins, o.rewriteResp p m2 ins = none) →
      (advanceState cfg o st m i r).current_prompt = st.current_prompt) := by
  refine ⟨?_, ?_, ?_⟩
  · intro o p m ins h
    unfold optimize_prompt
    rw [h]
  · intro o p m ins s h
    unfold optimize_prompt
    rw [h]
  · intro cfg o st m i r h
    unfold advanceState
    split
    · show (optimize_prompt o st.current_prompt m _) = st.current_prompt
      unfold optimize_prompt
      rw [h]
    · rfl

/-- Witness for C7: failing and succeeding rewrite backends. -/
theorem rewrite_failure_reuses_prompt_witness :
    optimize_prompt failOracle "p" emptyMetrics "" = "p"
    ∧ optimize_prompt trimOracle "p" emptyMetrics "" = pyStrip " new "
    ∧ (advanceState defaultConfig failOracle initialState emptyMetrics 1 1).current_prompt
      = initialState.current_prompt :=
  ⟨rewrite_failure_reuses_prompt.1 failOracle "p" emptyMetrics "" rfl,
   rewrite_failure_reuses_prompt.2.1 trimOracle "p" emptyMetrics "" " new " rfl,
   rewrite_failure_reuses_prompt.2.2 defaultConfig failOracle initialState emptyMetrics 1 1
     (fun _ _ _ => rfl)⟩

/-- Counterexample to claim C8: when both the assistant call and the
expected-function probe fail, the expected value is the string
`"unknown"` while the actual value is `none`; the two failure
representations are not the same and the comparison yields false, so
the evaluation is marked incorrect, contrary to the claim that both
sides use the same sentinel representation and compare equal. -/
theorem probe_failure_sentinel_cex :
    (evaluate_case failOracle 1 "p" { original := "q", variation := "q" }).expected = "unknown"
    ∧ (evaluate_case failOracle 1 "p" { original := "q", variation := "q" }).actual = none
    ∧ pyEqOptStr (evaluate_case failOracle 1 "p" { original := "q", variation := "q" }).actual
        (evaluate_case failOracle 1 "p" { original := "q", variation := "q" }).expected = false
    ∧ (evaluate_case failOracle 1 "p" { original := "q", variation := "q" }).correct = false :=
  ⟨rfl, rfl, rfl, rfl⟩

/-- Claim C8 as amended: when the expected-function probe fails the
expected value is the literal sentinel `"unknown"`; an absent actual
function is represented as `none`, a distinct representation, so when
both fail the comparison yields unequal and the evaluation is marked
incorrect. -/
theorem probe_failure_sentinel (o : Oracle) (it : Nat) (prompt : String) (tc : TestCase)
    (h1 : o.probeResp it tc.variation = none)
    (h2 : (evaluate_case o it prompt tc).actual = none) :
    (evaluate_case o it prompt tc).expected = "unknown"
    ∧ (evaluate_case o it prompt tc).correct = false := by
  constructor
  · show get_expected_function o it (call_voice_assistant o it tc.variation prompt).query
      = "unknown"
    rw [call_voice_assistant_query]
    unfold get_expected_function
    rw [h1]
  · have hc : (evaluate_case o it prompt tc).correct
        = pyEqOptStr (evaluate_case o it prompt tc).actual
            (evaluate_case o it prompt tc).expected := rfl
    rw [hc, h2]
    rfl

/-- Witness for the amended C8 on a concrete failing backend. -/
theorem probe_failure_sentinel_witness :
    (evaluate_case failOracle 2 "p2" { original := "q2", variation := "q2" }).expected = "unknown"
    ∧ (evaluate_case failOracle 2 "p2" { original := "q2", variation := "q2" }).correct = false :=
  probe_failure_sentinel failOracle 2 "p2" { original := "q2", variation := "q2" } rfl rfl

/-- Claim C9: on an empty suite the accuracy division is guarded:
`function_acc` is 0, the overall score is `0.8 * PARAMETER_WEIGHT`,
and the iteration still produces a metrics record (no failure). -/
theorem empty_suite_guarded (cfg : Config) (o : Oracle) (prompt : String) (it : Nat) :
    (run_iteration cfg o prompt [] it).function_acc = 0
    ∧ (run_iteration cfg o prompt [] it).overall = (8 / 10) * cfg.PARAMETER_WEIGHT
    ∧ (run_iteration cfg o prompt [] it).total = 0 := by
  refine ⟨rfl, ?_, rfl⟩
  have ht : (run_iteration cfg o prompt [] it).total = 0 := rfl
  rw [run_iteration_overall, ht]
  norm_num

/-- Claim C10: with `k ≥ 1` variations per query the suite holds at
most `seeds * k` cases; per seed at most `k - 1` paraphrases survive,
however many lines the gateway returns. -/
theorem suite_size_bound (o : Oracle) (seeds : List String) (k : Nat) (hk : 1 ≤ k) :
    (build_test_suite o seeds k).length ≤ seeds.length * k
    ∧ ∀ q, (variationTail o q k).length ≤ k - 1 := by
  refine ⟨?_, fun q => variationTail_length_le o q k hk⟩
  rw [build_test_suite_eq]
  induction seeds with
  | nil => simp
  | cons q rest ih =>
    rw [List.flatMap_cons, List.length_append]
    have hblock : (({ original := q, variation := q } : TestCase)
        :: (variationTail o q k).map (fun v => ({ original := q, variation := v } : TestCase))).length
        ≤ k := by
      simp only [List.length_cons, List.length_map]
      have := variationTail_length_le o q k hk
      omega
    calc _ ≤ k + rest.length * k := Nat.add_le_add hblock ih
      _ = (q :: rest).length * k := by simp [Nat.succ_mul]; ring

/-- Witness for C10: a gateway returning four paraphrase lines for a
two-variation request still yields a suite within the bound. -/
theorem suite_size_bound_witness :
    (build_test_suite verboseOracle ["s"] 2).length ≤ 1 * 2
    ∧ (variationTail verboseOracle "s" 2).length ≤ 2 - 1 :=
  ⟨(suite_size_bound verboseOracle ["s"] 2 (by norm_num)).1,
   (suite_size_bound verboseOracle ["s"] 2 (by norm_num)).2 "s"⟩
